import Mathlib

/-!
Shallow embedding of `src/windows/system.rs` of the sysinfo repository
(the Windows `System` snapshot: memory/swap getters, boot time, the
process registry maintained by `refresh_process`, the CPU refresh driven
by a counter query, and the category-scoped refresh operations).

Platform services (WinAPI calls, the counter subsystem, the per-process
metadata helpers living in files outside the excerpt) are modelled as an
explicit environment record `Env` whose fields stand for the values those
calls would return at the current instant.
-/

namespace Sysinfo

/-- Modelled from the spec: `ProcessEntry` (windows/process.rs, not under src/) —
"{ pid, handle/identity token, cpu usage: UsagePercentage, last-seen computation
time, liveness }", plus the cumulative busy-ticks pair that §4.3's delta sampling
retains between refreshes and an opaque metadata word refreshed by
`update_proc_info`. -/
structure Process where
  pid : Nat
  handle : Nat
  busy : Nat
  old_busy : Nat
  cpu_usage : Nat
  computed_at : Nat
  info : Nat
deriving DecidableEq, Repr

/-- Modelled from the spec: `Processor` (sys/processor.rs, not under src/) —
"{ name, vendor id, brand, usage: UsagePercentage, counter subscription:
Option<CounterKey> }"; the counter key is kept as the `unique_id` string used by
`Query::get`. -/
structure Processor where
  name : String
  vendor_id : String
  brand : String
  frequency : Nat
  cpu_usage : Nat
  key_used : Option String
deriving DecidableEq, Repr

/-- Modelled from the spec: `Processor::new_with_values` (sys/processor.rs, not
under src/) — processors are "created at initialization"; usage starts at its
initial value 0 and no counter subscription is attached yet. -/
def Processor.new_with_values (name vendor_id brand : String) (frequency : Nat) : Processor :=
  { name := name, vendor_id := vendor_id, brand := brand, frequency := frequency,
    cpu_usage := 0, key_used := none }

/-- Modelled from the spec: `Processor::set_cpu_usage` (sys/processor.rs, not
under src/) — stores the fresh raw sample pulled from the counter query as the
processor's usage value. -/
def Processor.set_cpu_usage (p : Processor) (used_time : Nat) : Processor :=
  { p with cpu_usage := used_time }

/-- Modelled from the spec: the Counter Query Session (windows/tools.rs, not
under src/) — "a stateful subscription to a set of counters; refreshing it
yields one raw sample per subscribed counter per cycle"; each subscription is
keyed by its logical `unique_id`. -/
structure Query where
  samples : List (String × Nat)
deriving DecidableEq, Repr

/-- External world of the engine: each field is the value the corresponding
platform call (WinAPI / helper outside the excerpt) returns at this instant. -/
structure Env where
  /-- `SystemTime::now().duration_since(UNIX_EPOCH)` in whole seconds; `none`
  means the wall clock reads earlier than the epoch (the `Err` branch). -/
  now_since_epoch : Option Nat
  /-- `GetTickCount64()`: milliseconds since boot. -/
  tick_count : Nat
  /-- `MEMORYSTATUSEX.ullTotalPhys` as filled by `GlobalMemoryStatusEx`. -/
  mem_total_phys : Nat
  /-- `MEMORYSTATUSEX.ullAvailPhys` as filled by `GlobalMemoryStatusEx`. -/
  mem_avail_phys : Nat
  /-- `GetExitCodeProcess(handle, &mut exit_code)`: the `BOOL` return value and
  the exit code written through the out pointer, per handle. -/
  exit_code_query : Nat → Nat × Nat
  /-- `Process::new_from_pid(pid)`: the OS process lookup. -/
  new_from_pid : Nat → Option Process
  /-- `get_system_computation_time()`: the sampling instant used for per-process
  CPU computation. -/
  system_time : Nat
  /-- Fresh metadata delivered by `update_proc_info` for a pid. -/
  proc_info : Nat → Nat
  /-- Fresh cumulative busy ticks delivered for a pid's process-level counter. -/
  proc_busy : Nat → Nat
  /-- The raw value the counter subsystem delivers for a subscribed counter
  (by `unique_id`) when the query is refreshed. -/
  fresh_sample : String → Nat
  /-- `component::get_components()`. -/
  components : List Nat
  /-- `get_disks()`. -/
  disks : List Nat
  /-- `get_users()`. -/
  users : List Nat
  /-- `get_translation(name, table)`: the Counter Catalog lookup. -/
  get_translation : String → Option String
  /-- Whether `add_counter` can resolve a counter path into a subscription. -/
  counter_path_ok : String → Bool

/-- Modelled from the spec: `Query::refresh` (windows/tools.rs, not under
src/) — "pulls one fresh raw value for every added counter, overwriting the
previous value". -/
def Query.refresh (env : Env) (q : Query) : Query :=
  ⟨q.samples.map (fun kv => (kv.1, env.fresh_sample kv.1))⟩

/-- Modelled from the spec: `Query::get` (windows/tools.rs, not under src/) —
looks a subscribed counter's current raw sample up by its `unique_id`;
`none` for a key never added. -/
def Query.get (q : Query) (uid : String) : Option Nat :=
  match q.samples.find? (fun kv => kv.1 == uid) with
  | some kv => some kv.2
  | none => none

/-- Modelled from the spec: `add_counter` (windows/tools.rs, not under src/) —
"idempotent per logical_key, fails silently ... if the path cannot be
resolved"; on success it registers the subscription in the query and writes the
key into the caller's slot, on failure the slot is left as it was. -/
def add_counter (env : Env) (path : String) (q : Query) (slot : Option String)
    (uid : String) : Query × Option String :=
  if env.counter_path_ok path then
    (⟨(uid, 0) :: q.samples⟩, some uid)
  else
    (q, slot)

/-- `winapi::shared::minwindef::FALSE`. -/
def FALSE : Nat := 0

/-- `winapi::um::minwinbase::STILL_ACTIVE` (0x103). -/
def STILL_ACTIVE : Nat := 259

/-- `GetExitCodeProcess` as seen through the environment. -/
def GetExitCodeProcess (env : Env) (handle : Nat) : Nat × Nat :=
  env.exit_code_query handle

/-- Modelled from the spec: `get_handle` (windows/process.rs, not under src/) —
returns the entry's native process handle. -/
def get_handle (p : Process) : Nat :=
  p.handle

/-- Modelled from the spec: `get_system_computation_time` (windows/process.rs,
not under src/) — reads the current sampling instant. -/
def get_system_computation_time (env : Env) : Nat :=
  env.system_time

/-- Modelled from the spec: `update_proc_info` (windows/process.rs, not under
src/) — "metadata refreshed (name, memory, etc. — delegated to the external
per-process metadata query)"; also re-reads the cumulative busy ticks the next
CPU computation diffs against. -/
def update_proc_info (env : Env) (p : Process) : Process :=
  { p with info := env.proc_info p.pid, busy := env.proc_busy p.pid }

/-- Modelled from the spec: `compute_cpu_usage` (windows/process.rs, not under
src/) — §4.3: "the same delta-over-elapsed-time principle applies but the
busy-ticks value comes from a process-level counter ... divided additionally by
the number of logical processors"; it records the sampling instant as the
entry's last-seen computation time. -/
def compute_cpu_usage (p : Process) (nb_processors : Nat) (now : Nat) : Process :=
  let denom := nb_processors * (now - p.computed_at)
  { p with
    cpu_usage := if denom = 0 then 0 else (p.busy - p.old_busy) / denom,
    old_busy := p.busy,
    computed_at := now }

/-- `Process::new_from_pid` as seen through the environment. -/
def Process.new_from_pid (env : Env) (pid : Nat) : Option Process :=
  env.new_from_pid pid

/-- `HashMap::contains_key` on the association-list model of the registry. -/
def containsKey (l : List (Nat × Process)) (pid : Nat) : Bool :=
  l.any (fun kv => kv.1 == pid)

/-- `HashMap::get` on the association-list model of the registry. -/
def lookupKey (l : List (Nat × Process)) (pid : Nat) : Option Process :=
  match l with
  | [] => none
  | kv :: rest => if kv.1 == pid then some kv.2 else lookupKey rest pid

/-- `HashMap::remove` on the association-list model of the registry. -/
def removeKey (l : List (Nat × Process)) (pid : Nat) : List (Nat × Process) :=
  match l with
  | [] => []
  | kv :: rest => if kv.1 != pid then kv :: removeKey rest pid else removeKey rest pid

/-- `HashMap::insert` on the association-list model of the registry
(replaces the binding when the key is present). -/
def insertKey (l : List (Nat × Process)) (pid : Nat) (p : Process) :
    List (Nat × Process) :=
  match l with
  | [] => [(pid, p)]
  | kv :: rest => if kv.1 == pid then (pid, p) :: rest else kv :: insertKey rest pid p

/-- In-place mutation of an existing entry (`HashMap::get_mut` followed by
writes through the reference). -/
def updateKey (l : List (Nat × Process)) (pid : Nat) (p : Process) :
    List (Nat × Process) :=
  l.map (fun kv => if kv.1 == pid then (kv.1, p) else kv)

/-- `struct System` (src/windows/system.rs, lines 39-53). `components`,
`disks`, `networks` and `users` are opaque to this core and modelled as plain
data. -/
structure System where
  process_list : List (Nat × Process)
  mem_total : Nat
  mem_free : Nat
  swap_total : Nat
  swap_free : Nat
  global_processor : Processor
  processors : List Processor
  components : List Nat
  disks : List Nat
  query : Option Query
  networks : Nat
  boot_time : Nat
  users : List Nat
deriving DecidableEq, Repr

/-- `boot_time()` (src/windows/system.rs, lines 61-72): wall-clock seconds
since the epoch minus `GetTickCount64() / 1000`, or the fallback 0 when the
wall clock reads earlier than the epoch. -/
def boot_time (env : Env) : Nat :=
  match env.now_since_epoch with
  | some n => n - env.tick_count / 1000
  | none => 0

/-- `is_proc_running` (src/windows/system.rs, lines 286-290). -/
def is_proc_running (env : Env) (handle : Nat) : Bool :=
  let r := GetExitCodeProcess env handle
  let ret := r.1
  let exit_code := r.2
  !(ret == FALSE || exit_code != STILL_ACTIVE)

/-- `refresh_existing_process` (src/windows/system.rs, lines 292-309). -/
def refresh_existing_process (env : Env) (s : System) (pid : Nat)
    (compute_cpu : Bool) : System × Bool :=
  match lookupKey s.process_list pid with
  | some entry =>
    if !is_proc_running env (get_handle entry) then
      (s, false)
    else
      let entry := update_proc_info env entry
      let entry :=
        if compute_cpu then
          compute_cpu_usage entry s.processors.length (get_system_computation_time env)
        else entry
      ({ s with process_list := updateKey s.process_list pid entry }, true)
  | none => (s, false)

/-- `refresh_process` (src/windows/system.rs, lines 171-186). -/
def refresh_process (env : Env) (s : System) (pid : Nat) : System × Bool :=
  if containsKey s.process_list pid then
    let r := refresh_existing_process env s pid true
    if r.2 = false then
      ({ r.1 with process_list := removeKey r.1.process_list pid }, false)
    else
      (r.1, true)
  else
    match Process.new_from_pid env pid with
    | some p =>
      let system_time := get_system_computation_time env
      let p := compute_cpu_usage p s.processors.length system_time
      ({ s with process_list := insertKey s.process_list pid p }, true)
    | none => (s, false)

/-- `refresh_processes` (src/windows/system.rs, lines 188-189): the body is
empty. -/
def refresh_processes (s : System) : System :=
  s

/-- `refresh_memory` (src/windows/system.rs, lines 155-165); the two swap
assignments are commented out in the source and hence absent here. -/
def refresh_memory (env : Env) (s : System) : System :=
  { s with
    mem_total := env.mem_total_phys,
    mem_free := env.mem_avail_phys }

/-- One processor's update inside `refresh_cpu`: when a counter key is
attached, read its fresh sample (`query.get(..).expect(..)` — `none` models
the panic) and store it; otherwise leave the processor untouched. -/
def refresh_processor_usage (query : Query) (p : Processor) : Option Processor :=
  match p.key_used with
  | some key_used =>
    match Query.get query key_used with
    | some used_time => some (Processor.set_cpu_usage p used_time)
    | none => none
  | none => some p

/-- `refresh_cpu` (src/windows/system.rs, lines 125-153): nothing happens when
the query is absent; otherwise the query is refreshed and the global processor
and every per-core processor with a subscription get their fresh sample. -/
def refresh_cpu (env : Env) (s : System) : Option System :=
  match s.query with
  | none => some s
  | some query =>
    match refresh_processor_usage (Query.refresh env query) s.global_processor with
    | none => none
    | some global_processor =>
      match s.processors.mapM (refresh_processor_usage (Query.refresh env query)) with
      | none => none
      | some processors =>
        some { s with
          global_processor := global_processor,
          processors := processors,
          query := some (Query.refresh env query) }

/-- `refresh_components_list` (src/windows/system.rs, lines 167-169). -/
def refresh_components_list (env : Env) (s : System) : System :=
  { s with components := env.components }

/-- `refresh_disks_list` (src/windows/system.rs, lines 191-193). -/
def refresh_disks_list (env : Env) (s : System) : System :=
  { s with disks := env.disks }

/-- `refresh_users_list` (src/windows/system.rs, lines 195-197). -/
def refresh_users_list (env : Env) (s : System) : System :=
  { s with users := env.users }

/-- `get_processes` (src/windows/system.rs, lines 199-201). -/
def get_processes (s : System) : List (Nat × Process) :=
  s.process_list

/-- `get_process` (src/windows/system.rs, lines 203-205). -/
def get_process (s : System) (pid : Nat) : Option Process :=
  lookupKey s.process_list pid

/-- `get_total_memory` (src/windows/system.rs, lines 215-217). -/
def get_total_memory (s : System) : Nat :=
  s.mem_total >>> 10

/-- `get_free_memory` (src/windows/system.rs, lines 219-221). -/
def get_free_memory (s : System) : Nat :=
  s.mem_free >>> 10

/-- `get_used_memory` (src/windows/system.rs, lines 223-225). -/
def get_used_memory (s : System) : Nat :=
  (s.mem_total - s.mem_free) >>> 10

/-- `get_total_swap` (src/windows/system.rs, lines 227-229). -/
def get_total_swap (s : System) : Nat :=
  s.swap_total >>> 10

/-- `get_free_swap` (src/windows/system.rs, lines 231-233). -/
def get_free_swap (s : System) : Nat :=
  s.swap_free >>> 10

/-- `get_used_swap` (src/windows/system.rs, lines 235-237). -/
def get_used_swap (s : System) : Nat :=
  (s.swap_total - s.swap_free) >>> 10

/-- `get_uptime` (src/windows/system.rs, lines 267-269). -/
def get_uptime (env : Env) : Nat :=
  env.tick_count / 1000

/-- `get_boot_time` (src/windows/system.rs, lines 271-273). -/
def get_boot_time (s : System) : Nat :=
  s.boot_time

/-- The record literal of `new_with_specifics` (src/windows/system.rs, lines
78-92). The results of the external calls `init_processors()` (processor
list, vendor id, brand) and `Query::new()` are passed in as parameters. -/
def init_record (env : Env) (processors : List Processor)
    (vendor_id brand : String) (q : Option Query) : System :=
  { process_list := [],
    mem_total := 0,
    mem_free := 0,
    swap_total := 0,
    swap_free := 0,
    global_processor := Processor.new_with_values "Total CPU" vendor_id brand 0,
    processors := processors,
    components := [],
    disks := [],
    query := q,
    networks := 0,
    boot_time := boot_time env,
    users := [] }

/-- The counter-registration block of `new_with_specifics`
(src/windows/system.rs, lines 94-120): when a query exists and the
"Processor" and "% Processor Time" translations resolve, a counter is added
for the global processor and one per per-core processor, each registration
writing the key into that processor's `key_used` slot. -/
def register_counters (env : Env) (s : System) : System :=
  match s.query with
  | none => s
  | some query =>
    match env.get_translation "Processor" with
    | none => s
    | some processor_trans =>
      match env.get_translation "% Processor Time" with
      | none => s
      | some proc_time_trans =>
        let r0 := add_counter env
          ("\\" ++ processor_trans ++ "(_Total)\\" ++ proc_time_trans)
          query s.global_processor.key_used "tot_0"
        let global_processor := { s.global_processor with key_used := r0.2 }
        let step := fun (acc : Query × List Processor × Nat) (p : Processor) =>
          let r := add_counter env
            ("\\" ++ processor_trans ++ "(" ++ toString acc.2.2 ++ ")\\" ++ proc_time_trans)
            acc.1 p.key_used (toString acc.2.2 ++ "_0")
          (r.1, acc.2.1 ++ [{ p with key_used := r.2 }], acc.2.2 + 1)
        let res := s.processors.foldl step (r0.1, [], 0)
        { s with
          query := some res.1,
          global_processor := global_processor,
          processors := res.2.1 }

/-- The category-scoped refresh operations a caller can invoke on the
snapshot facade. -/
inductive Op where
  | cpu
  | memory
  | processes
  | componentsList
  | disksList
  | usersList
  | process (pid : Nat)
deriving DecidableEq, Repr

/-- One refresh call against the environment of that instant; `none` models a
panic inside `refresh_cpu` (a `.expect` firing). -/
def stepOp (env : Env) (op : Op) (s : System) : Option System :=
  match op with
  | .cpu => refresh_cpu env s
  | .memory => some (refresh_memory env s)
  | .processes => some (refresh_processes s)
  | .componentsList => some (refresh_components_list env s)
  | .disksList => some (refresh_disks_list env s)
  | .usersList => some (refresh_users_list env s)
  | .process pid => some (refresh_process env s pid).1

/-- A session: a sequence of refresh calls, each against the environment of
its own instant. -/
def runOps : List (Env × Op) → System → Option System
  | [], s => some s
  | (env, op) :: rest, s =>
    match stepOp env op s with
    | none => none
    | some s' => runOps rest s'

/-- `new_with_specifics` (src/windows/system.rs, lines 76-123): build the
record, register the CPU counters, then perform the initial refreshes the
caller's `RefreshKind` requests (`refresh_specifics` lives outside the
excerpt; modelled from the spec as running the requested category refreshes). -/
def new_with_specifics (env : Env) (processors : List Processor)
    (vendor_id brand : String) (q : Option Query) (refreshes : List Op) :
    Option System :=
  runOps (refreshes.map (fun op => (env, op)))
    (register_counters env (init_record env processors vendor_id brand q))

/-! ## Helper lemmas -/

theorem lookupKey_some_contains {l : List (Nat × Process)} {pid : Nat} {e : Process}
    (h : lookupKey l pid = some e) : containsKey l pid = true := by
  induction l with
  | nil => simp [lookupKey] at h
  | cons kv rest ih =>
    simp only [lookupKey] at h
    simp only [containsKey, List.any_cons, Bool.or_eq_true]
    cases hk : (kv.1 == pid)
    · rw [hk] at h
      simp at h
      exact Or.inr (by simpa [containsKey] using ih h)
    · exact Or.inl rfl

theorem lookupKey_removeKey (l : List (Nat × Process)) (pid : Nat) :
    lookupKey (removeKey l pid) pid = none := by
  induction l with
  | nil => rfl
  | cons kv rest ih =>
    cases hk : (kv.1 == pid) <;> simp [removeKey, bne, hk, lookupKey, ih]

theorem containsKey_removeKey (l : List (Nat × Process)) (pid : Nat) :
    containsKey (removeKey l pid) pid = false := by
  induction l with
  | nil => rfl
  | cons kv rest ih =>
    simp only [containsKey] at ih ⊢
    cases hk : (kv.1 == pid) <;> simp [removeKey, bne, hk, ih]

theorem refresh_existing_process_shape (env : Env) (s : System) (pid : Nat) (b : Bool) :
    ∃ l r, refresh_existing_process env s pid b = ({ s with process_list := l }, r) := by
  unfold refresh_existing_process
  split
  · split
    · exact ⟨s.process_list, false, rfl⟩
    · exact ⟨_, true, rfl⟩
  · exact ⟨s.process_list, false, rfl⟩

theorem refresh_process_shape (env : Env) (s : System) (pid : Nat) :
    ∃ l b, refresh_process env s pid = ({ s with process_list := l }, b) := by
  unfold refresh_process
  split
  · obtain ⟨l, b, h⟩ := refresh_existing_process_shape env s pid true
    rw [h]
    cases b
    · exact ⟨removeKey l pid, false, rfl⟩
    · exact ⟨l, true, rfl⟩
  · split
    · exact ⟨_, true, rfl⟩
    · exact ⟨s.process_list, false, rfl⟩

theorem refresh_cpu_shape (env : Env) (s s' : System)
    (h : refresh_cpu env s = some s') :
    ∃ gp ps q, s' = { s with global_processor := gp, processors := ps, query := q } := by
  unfold refresh_cpu at h
  split at h
  · simp only [Option.some.injEq] at h
    subst h
    exact ⟨s.global_processor, s.processors, s.query, rfl⟩
  · split at h
    · cases h
    · split at h
      · cases h
      · simp only [Option.some.injEq] at h
        subst h
        exact ⟨_, _, _, rfl⟩

theorem register_counters_shape (env : Env) (s : System) :
    ∃ gp ps q, register_counters env s = { s with global_processor := gp, processors := ps, query := q } := by
  unfold register_counters
  split
  · exact ⟨s.global_processor, s.processors, s.query, rfl⟩
  · split
    · exact ⟨s.global_processor, s.processors, s.query, rfl⟩
    · split
      · exact ⟨s.global_processor, s.processors, s.query, rfl⟩
      · exact ⟨_, _, _, rfl⟩

theorem stepOp_frame (env : Env) (op : Op) (s s' : System)
    (h : stepOp env op s = some s') :
    s'.swap_total = s.swap_total ∧ s'.swap_free = s.swap_free ∧
      s'.boot_time = s.boot_time := by
  cases op with
  | cpu =>
    obtain ⟨gp, ps, q, hs⟩ := refresh_cpu_shape env s s' h
    subst hs; exact ⟨rfl, rfl, rfl⟩
  | memory =>
    simp only [stepOp, Option.some.injEq] at h
    subst h; exact ⟨rfl, rfl, rfl⟩
  | processes =>
    simp only [stepOp, Option.some.injEq] at h
    subst h; exact ⟨rfl, rfl, rfl⟩
  | componentsList =>
    simp only [stepOp, Option.some.injEq] at h
    subst h; exact ⟨rfl, rfl, rfl⟩
  | disksList =>
    simp only [stepOp, Option.some.injEq] at h
    subst h; exact ⟨rfl, rfl, rfl⟩
  | usersList =>
    simp only [stepOp, Option.some.injEq] at h
    subst h; exact ⟨rfl, rfl, rfl⟩
  | process pid =>
    obtain ⟨l, b, hs⟩ := refresh_process_shape env s pid
    simp only [stepOp, hs, Option.some.injEq] at h
    subst h; exact ⟨rfl, rfl, rfl⟩

theorem runOps_frame (steps : List (Env × Op)) (s s' : System)
    (h : runOps steps s = some s') :
    s'.swap_total = s.swap_total ∧ s'.swap_free = s.swap_free ∧
      s'.boot_time = s.boot_time := by
  induction steps generalizing s with
  | nil =>
    simp only [runOps, Option.some.injEq] at h
    subst h; exact ⟨rfl, rfl, rfl⟩
  | cons step rest ih =>
    simp only [runOps] at h
    split at h
    · cases h
    · rename_i s1 hstep
      obtain ⟨h1, h2, h3⟩ := stepOp_frame step.1 step.2 s s1 hstep
      obtain ⟨h4, h5, h6⟩ := ih s1 h
      exact ⟨h4.trans h1, h5.trans h2, h6.trans h3⟩

/-! ## Concrete instances used to instantiate the theorems -/

/-- A concrete environment: the exit-code query fails (`FALSE`, exit code 0),
the OS process lookup finds nothing, physical memory is 1024 bytes total with
1 byte available, and the counter subsystem resolves nothing. -/
def exEnv : Env :=
  { now_since_epoch := some 1000000,
    tick_count := 2000000,
    mem_total_phys := 1024,
    mem_avail_phys := 1,
    exit_code_query := fun _ => (0, 0),
    new_from_pid := fun _ => none,
    system_time := 5,
    proc_info := fun _ => 0,
    proc_busy := fun _ => 0,
    fresh_sample := fun _ => 0,
    components := [],
    disks := [],
    users := [],
    get_translation := fun _ => none,
    counter_path_ok := fun _ => false }

/-- A post-refresh snapshot: a freshly constructed system after one
`refresh_memory` against `exEnv` (so `mem_total = 1024`, `mem_free = 1`). -/
def exSystemC1 : System :=
  refresh_memory exEnv (init_record exEnv [] "v" "b" none)

/-- A tracked process entry whose last CPU computation happened at instant 0. -/
def exProcessStale : Process :=
  { pid := 100, handle := 7, busy := 40, old_busy := 0, cpu_usage := 0,
    computed_at := 0, info := 0 }

/-- A system tracking pid 100 (used for the registry claims). -/
def exSystemC2 : System :=
  { init_record exEnv [] "v" "b" none with process_list := [(100, exProcessStale)] }

/-- A freshly constructed system with an empty registry and no query. -/
def exSystemC3 : System :=
  init_record exEnv [] "v" "b" none

/-- A system tracking pid 100 whose entry is stale (last computation at 0,
current sampling instant 5). -/
def exSystemC4 : System :=
  { init_record exEnv [] "v" "b" none with process_list := [(100, exProcessStale)] }

/-! ## Claims -/

/-- C1 (counterexample): the claimed identity
`get_total_memory() - get_free_memory() == get_used_memory()` fails on the
code: on the post-refresh snapshot with `mem_total = 1024` and `mem_free = 1`,
`get_total_memory - get_free_memory = 1 - 0 = 1` while
`get_used_memory = 1023 >> 10 = 0`. -/
theorem c1_memory_consistency_counterexample :
    get_total_memory exSystemC1 - get_free_memory exSystemC1 ≠
      get_used_memory exSystemC1 := by
  decide

/-- C1 (amended): for every snapshot with `mem_free ≤ mem_total`,
`get_total_memory - get_free_memory` equals `get_used_memory` or
`get_used_memory + 1`, and it equals `get_used_memory` exactly when
`mem_free mod 1024 ≤ mem_total mod 1024` (the right shift by 10 discards the
low 10 bits before and after the subtraction, which can differ by one). -/
theorem c1_memory_consistency_amended (s : System)
    (h : s.mem_free ≤ s.mem_total) :
    (get_total_memory s - get_free_memory s = get_used_memory s ∨
      get_total_memory s - get_free_memory s = get_used_memory s + 1) ∧
    (get_total_memory s - get_free_memory s = get_used_memory s ↔
      s.mem_free % 1024 ≤ s.mem_total % 1024) := by
  have e1 : get_total_memory s = s.mem_total / 1024 := by
    simp [get_total_memory, Nat.shiftRight_eq_div_pow]
  have e2 : get_free_memory s = s.mem_free / 1024 := by
    simp [get_free_memory, Nat.shiftRight_eq_div_pow]
  have e3 : get_used_memory s = (s.mem_total - s.mem_free) / 1024 := by
    simp [get_used_memory, Nat.shiftRight_eq_div_pow]
  rw [e1, e2, e3]
  omega

/-- C1 (witness for the amended claim at the concrete snapshot `exSystemC1`). -/
theorem c1_memory_consistency_amended_witness :
    (get_total_memory exSystemC1 - get_free_memory exSystemC1 = get_used_memory exSystemC1 ∨
      get_total_memory exSystemC1 - get_free_memory exSystemC1 = get_used_memory exSystemC1 + 1) ∧
    (get_total_memory exSystemC1 - get_free_memory exSystemC1 = get_used_memory exSystemC1 ↔
      exSystemC1.mem_free % 1024 ≤ exSystemC1.mem_total % 1024) :=
  c1_memory_consistency_amended exSystemC1 (by decide)

/-- C2: if a tracked pid's liveness probe reports terminated, then
`refresh_process(pid)` returns false and pid is absent from the process list
(`get_process` yields none, and the map returned by `get_processes` has no
binding for pid) immediately afterwards. -/
theorem c2_refresh_process_removes_dead (env : Env) (s : System) (pid : Nat)
    (entry : Process)
    (hmem : lookupKey s.process_list pid = some entry)
    (hdead : is_proc_running env (get_handle entry) = false) :
    (refresh_process env s pid).2 = false ∧
    get_process (refresh_process env s pid).1 pid = none ∧
    containsKey (get_processes (refresh_process env s pid).1) pid = false := by
  have hc : containsKey s.process_list pid = true := lookupKey_some_contains hmem
  have hr : refresh_existing_process env s pid true = (s, false) := by
    unfold refresh_existing_process
    rw [hmem]
    simp [hdead]
  unfold refresh_process
  rw [hc, hr]
  simp [get_process, get_processes, lookupKey_removeKey, containsKey_removeKey]

/-- C2 (witness): the dead-probe environment `exEnv` on the system tracking
pid 100. -/
theorem c2_refresh_process_removes_dead_witness :
    (refresh_process exEnv exSystemC2 100).2 = false ∧
    get_process (refresh_process exEnv exSystemC2 100).1 100 = none ∧
    containsKey (get_processes (refresh_process exEnv exSystemC2 100).1) 100 = false :=
  c2_refresh_process_removes_dead exEnv exSystemC2 100 exProcessStale rfl rfl

/-- C3: for a pid that is not tracked and for which the OS lookup
(`Process::new_from_pid`) yields nothing, `refresh_process` returns false and
the entire system state is unchanged. -/
theorem c3_refresh_process_unknown_pid (env : Env) (s : System) (pid : Nat)
    (hnot : containsKey s.process_list pid = false)
    (hos : Process.new_from_pid env pid = none) :
    refresh_process env s pid = (s, false) := by
  unfold refresh_process
  simp [hnot, hos]

/-- C3 (witness): pid 100 on the empty registry with `exEnv`, whose OS lookup
finds no process. -/
theorem c3_refresh_process_unknown_pid_witness :
    refresh_process exEnv exSystemC3 100 = (exSystemC3, false) :=
  c3_refresh_process_unknown_pid exEnv exSystemC3 100 rfl rfl

/-- C4 (failing input): the body of `refresh_processes` is empty, so on a
state tracking pid 100 whose entry was last evaluated at instant 0 while the
current sampling instant is 5, the call changes nothing: the entry is not
re-evaluated and still carries the old computation instant, contradicting
"every tracked process is (re)evaluated exactly once per refresh, reflecting
this call's sampling instant". -/
theorem c4_refresh_processes_is_noop :
    refresh_processes exSystemC4 = exSystemC4 ∧
    (get_process (refresh_processes exSystemC4) 100).map Process.computed_at = some 0 ∧
    (get_process (refresh_processes exSystemC4) 100).map Process.computed_at ≠
      some (get_system_computation_time exEnv) := by
  refine ⟨rfl, rfl, ?_⟩
  decide

/-- C5: `is_proc_running` returns true exactly when the exit-code query
succeeds (nonzero `BOOL`) and the reported exit code is the `STILL_ACTIVE`
sentinel; any other outcome yields false. -/
theorem c5_is_proc_running_iff (env : Env) (handle : Nat) :
    is_proc_running env handle = true ↔
      ((GetExitCodeProcess env handle).1 ≠ FALSE ∧
        (GetExitCodeProcess env handle).2 = STILL_ACTIVE) := by
  simp [is_proc_running, FALSE, STILL_ACTIVE, GetExitCodeProcess]

theorem refresh_existing_process_query_congr (env : Env) (s : System) (pid : Nat)
    (b : Bool) (q : Option Query) :
    refresh_existing_process env { s with query := q } pid b =
      ({ (refresh_existing_process env s pid b).1 with query := q },
        (refresh_existing_process env s pid b).2) := by
  unfold refresh_existing_process
  cases hl : lookupKey s.process_list pid with
  | none => simp [hl]
  | some entry =>
    cases hrun : is_proc_running env (get_handle entry) <;> simp [hl, hrun]

theorem refresh_process_query_congr (env : Env) (s : System) (pid : Nat)
    (q : Option Query) :
    refresh_process env { s with query := q } pid =
      ({ (refresh_process env s pid).1 with query := q },
        (refresh_process env s pid).2) := by
  obtain ⟨l, b, hshape⟩ := refresh_existing_process_shape env s pid true
  have hcongr := refresh_existing_process_query_congr env s pid true q
  rw [hshape] at hcongr
  unfold refresh_process
  cases hc : containsKey s.process_list pid
  · cases ho : Process.new_from_pid env pid <;> simp [hc, ho]
  · rw [hcongr, hshape]
    cases b <;> simp [hc]

/-- A freshly constructed system without a counter query. -/
def exSystemC6 : System :=
  init_record exEnv [] "v" "b" none

/-- C6: when the counter subsystem was unavailable at construction (the query
field is none), `refresh_cpu` leaves the entire system state unchanged, while
`refresh_memory` and `refresh_process` are insensitive to the query field:
they act on a system with any query exactly as without, leaving that query in
place. -/
theorem c6_no_query_degrades_gracefully :
    (∀ env s, s.query = none → refresh_cpu env s = some s) ∧
    (∀ env s q, refresh_memory env { s with query := q } =
      { refresh_memory env s with query := q }) ∧
    (∀ env s pid q, refresh_process env { s with query := q } pid =
      ({ (refresh_process env s pid).1 with query := q },
        (refresh_process env s pid).2)) := by
  refine ⟨?_, ?_, ?_⟩
  · intro env s h
    unfold refresh_cpu
    rw [h]
  · intro env s q
    rfl
  · intro env s pid q
    exact refresh_process_query_congr env s pid q

/-- C6 (witness): `refresh_cpu` on the query-less system is the identity. -/
theorem c6_no_query_degrades_gracefully_witness :
    refresh_cpu exEnv exSystemC6 = some exSystemC6 :=
  c6_no_query_degrades_gracefully.1 exEnv exSystemC6 rfl

/-- C7: `refresh_memory` rewrites exactly the two memory fields and nothing
else, and a completed `refresh_cpu` leaves the memory fields, swap fields,
process list, boot time, components, disks, networks and users unchanged
(it touches only the processors and the query they are fed from). -/
theorem c7_refresh_frame_independence :
    (∀ env s,
      (refresh_memory env s).mem_total = env.mem_total_phys ∧
      (refresh_memory env s).mem_free = env.mem_avail_phys ∧
      (refresh_memory env s).process_list = s.process_list ∧
      (refresh_memory env s).processors = s.processors ∧
      (refresh_memory env s).global_processor = s.global_processor ∧
      (refresh_memory env s).boot_time = s.boot_time ∧
      (refresh_memory env s).swap_total = s.swap_total ∧
      (refresh_memory env s).swap_free = s.swap_free ∧
      (refresh_memory env s).components = s.components ∧
      (refresh_memory env s).disks = s.disks ∧
      (refresh_memory env s).query = s.query ∧
      (refresh_memory env s).networks = s.networks ∧
      (refresh_memory env s).users = s.users) ∧
    (∀ env s s', refresh_cpu env s = some s' →
      s'.mem_total = s.mem_total ∧ s'.mem_free = s.mem_free ∧
      s'.swap_total = s.swap_total ∧ s'.swap_free = s.swap_free ∧
      s'.process_list = s.process_list ∧ s'.boot_time = s.boot_time ∧
      s'.components = s.components ∧ s'.disks = s.disks ∧
      s'.networks = s.networks ∧ s'.users = s.users) := by
  refine ⟨fun env s =>
    ⟨rfl, rfl, rfl, rfl, rfl, rfl, rfl, rfl, rfl, rfl, rfl, rfl, rfl⟩,
    fun env s s' h => ?_⟩
  obtain ⟨gp, ps, q, hs⟩ := refresh_cpu_shape env s s' h
  subst hs
  exact ⟨rfl, rfl, rfl, rfl, rfl, rfl, rfl, rfl, rfl, rfl⟩

/-- C7 (witness): the `refresh_cpu` frame at the query-less system, where the
call completes and returns the state itself. -/
theorem c7_refresh_frame_independence_witness :
    exSystemC6.mem_total = exSystemC6.mem_total ∧
    exSystemC6.mem_free = exSystemC6.mem_free ∧
    exSystemC6.swap_total = exSystemC6.swap_total ∧
    exSystemC6.swap_free = exSystemC6.swap_free ∧
    exSystemC6.process_list = exSystemC6.process_list ∧
    exSystemC6.boot_time = exSystemC6.boot_time ∧
    exSystemC6.components = exSystemC6.components ∧
    exSystemC6.disks = exSystemC6.disks ∧
    exSystemC6.networks = exSystemC6.networks ∧
    exSystemC6.users = exSystemC6.users :=
  c7_refresh_frame_independence.2 exEnv exSystemC6 exSystemC6 rfl

theorem new_with_specifics_frame (env : Env) (processors : List Processor)
    (vendor_id brand : String) (q : Option Query) (refreshes : List Op)
    (s0 : System)
    (h0 : new_with_specifics env processors vendor_id brand q refreshes = some s0) :
    s0.swap_total = 0 ∧ s0.swap_free = 0 ∧ s0.boot_time = boot_time env := by
  unfold new_with_specifics at h0
  have h4 := runOps_frame _ _ _ h0
  obtain ⟨gp, ps, qq, hreg⟩ :=
    register_counters_shape env (init_record env processors vendor_id brand q)
  rw [hreg] at h4
  exact ⟨h4.1, h4.2.1, h4.2.2⟩

/-- The system obtained by a refresh-free construction against `exEnv`. -/
def exSystemC8 : System :=
  register_counters exEnv (init_record exEnv [] "v" "b" none)

/-- C8: boot time is computed once at construction (wall-clock seconds since
the epoch minus uptime seconds, per `boot_time`) and cached: any session of
refresh operations after construction leaves `get_boot_time` at the value it
had immediately after construction. -/
theorem c8_boot_time_cached (env : Env) (processors : List Processor)
    (vendor_id brand : String) (q : Option Query) (refreshes : List Op)
    (s0 : System) (steps : List (Env × Op)) (s' : System)
    (h0 : new_with_specifics env processors vendor_id brand q refreshes = some s0)
    (h1 : runOps steps s0 = some s') :
    get_boot_time s0 = boot_time env ∧ get_boot_time s' = get_boot_time s0 := by
  have hinit := new_with_specifics_frame env processors vendor_id brand q refreshes s0 h0
  have h2 := runOps_frame _ _ _ h1
  exact ⟨hinit.2.2, h2.2.2⟩

/-- C8 (witness): an empty construction followed by an empty session. -/
theorem c8_boot_time_cached_witness :
    get_boot_time exSystemC8 = boot_time exEnv ∧
    get_boot_time exSystemC8 = get_boot_time exSystemC8 :=
  c8_boot_time_cached exEnv [] "v" "b" none [] exSystemC8 [] exSystemC8 rfl rfl

/-- C9: the swap fields are initialized to 0 at construction, `refresh_memory`
never assigns them (the assignments are commented out), and no operation of a
session ever modifies them, so on every reachable state `get_total_swap`,
`get_free_swap` and `get_used_swap` all return 0. -/
theorem c9_swap_always_zero (env : Env) (processors : List Processor)
    (vendor_id brand : String) (q : Option Query) (refreshes : List Op)
    (s0 : System) (steps : List (Env × Op)) (s' : System)
    (h0 : new_with_specifics env processors vendor_id brand q refreshes = some s0)
    (h1 : runOps steps s0 = some s') :
    s'.swap_total = 0 ∧ s'.swap_free = 0 ∧
    get_total_swap s' = 0 ∧ get_free_swap s' = 0 ∧ get_used_swap s' = 0 := by
  have hinit := new_with_specifics_frame env processors vendor_id brand q refreshes s0 h0
  have h2 := runOps_frame _ _ _ h1
  have ht : s'.swap_total = 0 := h2.1.trans hinit.1
  have hf : s'.swap_free = 0 := h2.2.1.trans hinit.2.1
  refine ⟨ht, hf, ?_, ?_, ?_⟩ <;>
    simp [get_total_swap, get_free_swap, get_used_swap, ht, hf]

/-- C9 (witness): an empty construction followed by an empty session. -/
theorem c9_swap_always_zero_witness :
    exSystemC8.swap_total = 0 ∧ exSystemC8.swap_free = 0 ∧
    get_total_swap exSystemC8 = 0 ∧ get_free_swap exSystemC8 = 0 ∧
    get_used_swap exSystemC8 = 0 :=
  c9_swap_always_zero exEnv [] "v" "b" none [] exSystemC8 [] exSystemC8 rfl rfl

/-- An environment whose wall clock reads earlier than the UNIX epoch. -/
def exEnvNoClock : Env :=
  { exEnv with now_since_epoch := none }

/-- The system obtained by a refresh-free construction against
`exEnvNoClock`. -/
def exSystemC10 : System :=
  register_counters exEnvNoClock (init_record exEnvNoClock [] "v" "b" none)

/-- C10: when `SystemTime::now().duration_since(UNIX_EPOCH)` fails at
construction, `boot_time` falls back to 0, and `get_boot_time` returns 0 at
construction and after any session of refresh operations. -/
theorem c10_epoch_failure_fallback (env : Env) (processors : List Processor)
    (vendor_id brand : String) (q : Option Query) (refreshes : List Op)
    (s0 : System) (steps : List (Env × Op)) (s' : System)
    (hclock : env.now_since_epoch = none)
    (h0 : new_with_specifics env processors vendor_id brand q refreshes = some s0)
    (h1 : runOps steps s0 = some s') :
    boot_time env = 0 ∧ get_boot_time s0 = 0 ∧ get_boot_time s' = 0 := by
  have hb : boot_time env = 0 := by
    unfold boot_time
    rw [hclock]
  have hinit := new_with_specifics_frame env processors vendor_id brand q refreshes s0 h0
  have h2 := runOps_frame _ _ _ h1
  exact ⟨hb, hinit.2.2.trans hb, (h2.2.2.trans hinit.2.2).trans hb⟩

/-- C10 (witness): the pre-epoch clock environment with an empty construction
and an empty session. -/
theorem c10_epoch_failure_fallback_witness :
    boot_time exEnvNoClock = 0 ∧ get_boot_time exSystemC10 = 0 ∧
    get_boot_time exSystemC10 = 0 :=
  c10_epoch_failure_fallback exEnvNoClock [] "v" "b" none [] exSystemC10 []
    exSystemC10 rfl rfl rfl

end Sysinfo
